import Mathlib

/-!
Shallow embedding of `src/main.py`: a FastAPI façade over an Ollama chat
backend.  The embedding covers the configuration, the request/response
schemas, the backend invoker `_post_ollama`, the JSON extraction helper
`_extract_json`, the prompt-template selector `_pick_system_msg`, the
analyze pipeline `_analyze_once`, and the route handlers `health`, `chat`
and the two `analyze` routes.  Stateful HTTP effects are made explicit:
the backend transport is a parameter, and each handler returns the list of
outbound backend calls it performed alongside its result.
-/

namespace OllamaFacade

/-- JSON values: the model of the Python objects produced by `json.loads`
and serialised in responses.  Numbers are modelled as exact rationals (the
value of the decimal literal); objects keep their fields in insertion
order, and a repeated key is shadowed by the later binding via
`lookupField`, matching Python dict construction. -/
inductive Json where
  | null
  | bool (b : Bool)
  | num (q : ℚ)
  | str (s : String)
  | arr (elems : List Json)
  | obj (fields : List (String × Json))
deriving Inhabited

/-- The opening-brace character, written via its code point. -/
def lbrace : Char := Char.ofNat 123

/-- The closing-brace character, written via its code point. -/
def rbrace : Char := Char.ofNat 125

/-- The double-quote character. -/
def quoteChar : Char := Char.ofNat 34

/-- The backslash character. -/
def backslashChar : Char := Char.ofNat 92

/-- Last-binding-wins field lookup on an association list, the model of
lookup in a Python dict built by inserting the bindings in order. -/
def lookupField (fields : List (String × Json)) (k : String) : Option Json :=
  fields.foldl (fun acc p => if p.1 == k then some p.2 else acc) none

/-- `jsonLookup j k` models `j.get(k)` on a parsed JSON value: a lookup on
an object, `none` otherwise. -/
def jsonLookup (j : Json) (k : String) : Option Json :=
  match j with
  | .obj fields => lookupField fields k
  | _ => none

/-- Python truthiness of a JSON value (`bool(x)` for the corresponding
Python object): null, false, zero, the empty string, the empty list and
the empty dict are falsy. -/
def jsonTruthy : Json → Bool
  | .null => false
  | .bool b => b
  | .num q => !(q == 0)
  | .str s => !(s == "")
  | .arr elems => !elems.isEmpty
  | .obj fields => !fields.isEmpty

/-- JSON whitespace skipping (space, tab, newline, carriage return), as in
Python's `json` module. -/
def skipWs : List Char → List Char
  | [] => []
  | c :: cs =>
    if c == ' ' || c == Char.ofNat 9 || c == Char.ofNat 10 || c == Char.ofNat 13 then
      skipWs cs
    else c :: cs

/-- Value of a hexadecimal digit, if the character is one. -/
def hexVal (c : Char) : Option Nat :=
  if '0' ≤ c ∧ c ≤ '9' then some (c.toNat - 48)
  else if 'a' ≤ c ∧ c ≤ 'f' then some (c.toNat - 87)
  else if 'A' ≤ c ∧ c ≤ 'F' then some (c.toNat - 55)
  else none

/-- String-body scanner for the JSON parser: consumes characters after the
opening quote up to the closing quote, decoding the standard JSON escape
sequences (surrogate pairs are decoded as two code units, which no claim
exercises).  `fuel` dominates the length of the remaining input. -/
def parseStringAux (fuel : Nat) (acc : List Char) (s : List Char) :
    Except String (String × List Char) :=
  match fuel with
  | 0 => .error "Unterminated string"
  | fuel + 1 =>
    match s with
    | [] => .error "Unterminated string"
    | c :: cs =>
      if c == quoteChar then .ok (⟨acc.reverse⟩, cs)
      else if c == backslashChar then
        match cs with
        | [] => .error "Unterminated string"
        | e :: cs2 =>
          if e == quoteChar then parseStringAux fuel (quoteChar :: acc) cs2
          else if e == backslashChar then parseStringAux fuel (backslashChar :: acc) cs2
          else if e == '/' then parseStringAux fuel ('/' :: acc) cs2
          else if e == 'b' then parseStringAux fuel (Char.ofNat 8 :: acc) cs2
          else if e == 'f' then parseStringAux fuel (Char.ofNat 12 :: acc) cs2
          else if e == 'n' then parseStringAux fuel (Char.ofNat 10 :: acc) cs2
          else if e == 'r' then parseStringAux fuel (Char.ofNat 13 :: acc) cs2
          else if e == 't' then parseStringAux fuel (Char.ofNat 9 :: acc) cs2
          else if e == 'u' then
            match cs2 with
            | h1 :: h2 :: h3 :: h4 :: cs3 =>
              match hexVal h1, hexVal h2, hexVal h3, hexVal h4 with
              | some a, some b, some c2, some d =>
                parseStringAux fuel (Char.ofNat (((a * 16 + b) * 16 + c2) * 16 + d) :: acc) cs3
              | _, _, _, _ => .error "Invalid unicode escape"
            | _ => .error "Invalid unicode escape"
          else .error "Invalid escape"
      else parseStringAux fuel (c :: acc) cs

/-- Value of a list of decimal digits. -/
def digitsToNat (ds : List Char) : Nat :=
  ds.foldl (fun n c => n * 10 + (c.toNat - 48)) 0

/-- JSON number scanner: optional minus sign, integer digits, optional
fractional part, optional exponent, producing the exact rational value of
the decimal literal. -/
def parseNumber (s : List Char) : Except String (Json × List Char) :=
  let signSplit : Bool × List Char :=
    match s with
    | c :: cs => if c == '-' then (true, cs) else (false, s)
    | [] => (false, s)
  let neg := signSplit.1
  let s1 := signSplit.2
  let intSplit := s1.span Char.isDigit
  let intDs := intSplit.1
  let s2 := intSplit.2
  if intDs.isEmpty then .error "Expecting value"
  else
    let fracStep : Except String (List Char × List Char) :=
      match s2 with
      | c :: cs =>
        if c == '.' then
          let fracSplit := cs.span Char.isDigit
          if fracSplit.1.isEmpty then .error "Expecting value"
          else .ok (fracSplit.1, fracSplit.2)
        else .ok ([], s2)
      | [] => .ok ([], s2)
    match fracStep with
    | .error e => .error e
    | .ok (fracDs, s3) =>
      let expStep : Except String (Int × List Char) :=
        match s3 with
        | c :: cs =>
          if c == 'e' || c == 'E' then
            let expSign : Int × List Char :=
              match cs with
              | d :: ds => if d == '+' then (1, ds) else if d == '-' then (-1, ds) else (1, cs)
              | [] => (1, cs)
            let expSplit := expSign.2.span Char.isDigit
            if expSplit.1.isEmpty then .error "Expecting value"
            else .ok (expSign.1 * (digitsToNat expSplit.1 : Int), expSplit.2)
          else .ok (0, s3)
        | [] => .ok (0, s3)
      match expStep with
      | .error e => .error e
      | .ok (exp, s4) =>
        let mantissa : ℚ :=
          (digitsToNat intDs : ℚ) + (digitsToNat fracDs : ℚ) / ((10 : ℚ) ^ fracDs.length)
        let value : ℚ := (if neg then -mantissa else mantissa) * (10 : ℚ) ^ exp
        .ok (.num value, s4)

mutual

/-- Recursive-descent JSON value scanner, the model of the grammar
accepted by Python's `json.loads`.  `fuel` bounds the nesting depth and is
instantiated with the input length at the top level. -/
def parseVal : Nat → List Char → Except String (Json × List Char)
  | 0, _ => .error "Expecting value"
  | fuel + 1, s =>
    match skipWs s with
    | [] => .error "Expecting value"
    | c :: cs =>
      if c == quoteChar then
        match parseStringAux (cs.length + 1) [] cs with
        | .ok (str, rest) => .ok (.str str, rest)
        | .error e => .error e
      else if c == lbrace then parseObjFields fuel cs []
      else if c == '[' then parseArrElems fuel cs []
      else if c == 't' then
        match cs with
        | 'r' :: 'u' :: 'e' :: rest => .ok (.bool true, rest)
        | _ => .error "Expecting value"
      else if c == 'f' then
        match cs with
        | 'a' :: 'l' :: 's' :: 'e' :: rest => .ok (.bool false, rest)
        | _ => .error "Expecting value"
      else if c == 'n' then
        match cs with
        | 'u' :: 'l' :: 'l' :: rest => .ok (.null, rest)
        | _ => .error "Expecting value"
      else parseNumber (c :: cs)

/-- Object-member scanner, entered just after the opening brace or after a
member-separating comma; `acc` holds the members parsed so far, so an
immediate closing brace is accepted only for the empty object (no trailing
commas, as in Python's `json`). -/
def parseObjFields : Nat → List Char → List (String × Json) →
    Except String (Json × List Char)
  | 0, _, _ => .error "Expecting value"
  | fuel + 1, s, acc =>
    match skipWs s with
    | [] => .error "Unterminated object"
    | c :: cs =>
      if c == rbrace && acc.isEmpty then .ok (.obj acc, cs)
      else if c == quoteChar then
        match parseStringAux (cs.length + 1) [] cs with
        | .error e => .error e
        | .ok (key, rest) =>
          match skipWs rest with
          | ':' :: rest2 =>
            match parseVal fuel rest2 with
            | .error e => .error e
            | .ok (v, rest3) =>
              match skipWs rest3 with
              | ',' :: rest4 => parseObjFields fuel rest4 (acc ++ [(key, v)])
              | c2 :: rest4 =>
                if c2 == rbrace then .ok (.obj (acc ++ [(key, v)]), rest4)
                else .error "Expecting delimiter"
              | [] => .error "Unterminated object"
          | _ => .error "Expecting colon"
      else .error "Expecting property name"

/-- Array-element scanner, entered just after the opening bracket or after
an element-separating comma. -/
def parseArrElems : Nat → List Char → List Json → Except String (Json × List Char)
  | 0, _, _ => .error "Expecting value"
  | fuel + 1, s, acc =>
    match skipWs s with
    | [] => .error "Unterminated array"
    | c :: cs =>
      if c == ']' && acc.isEmpty then .ok (.arr acc, cs)
      else
        match parseVal fuel (c :: cs) with
        | .error e => .error e
        | .ok (v, rest) =>
          match skipWs rest with
          | ',' :: rest2 => parseArrElems fuel rest2 (acc ++ [v])
          | c2 :: rest2 =>
            if c2 == ']' then .ok (.arr (acc ++ [v]), rest2)
            else .error "Expecting delimiter"
          | [] => .error "Unterminated array"

end

/-- Model of `json.loads`: parse one JSON value and require that only
whitespace remains. -/
def parse_json (s : String) : Except String Json :=
  match parseVal (s.data.length + 1) s.data with
  | .error e => .error e
  | .ok (v, rest) => if (skipWs rest).isEmpty then .ok v else .error "Extra data"

/-- Index of the first occurrence of a character in a list, if any. -/
def findFirstIdx (c : Char) : List Char → Option Nat
  | [] => none
  | x :: xs => if x = c then some 0 else (findFirstIdx c xs).map (· + 1)

/-- Index of the last occurrence of a character in a list, if any. -/
def findLastIdx (c : Char) : List Char → Option Nat
  | [] => none
  | x :: xs =>
    match findLastIdx c xs with
    | some j => some (j + 1)
    | none => if x = c then some 0 else none

/-- Character-list core of `_extract_json`: the denotation of the search
for the greedy regex `\x7b.*\x7d` with the DOTALL flag.  A match, when one
exists, starts at the first opening brace (the leftmost possible start)
and ends at the last closing brace (greedy `.*`); with no match the whole
input is returned. -/
def extractJsonChars (s : List Char) : List Char :=
  match findFirstIdx lbrace s, findLastIdx rbrace s with
  | some i, some j => if i < j then (s.drop i).take (j + 1 - i) else s
  | _, _ => s

/-- `_extract_json` from `src/main.py`: return the greedy first-brace to
last-brace span of the text, or the whole text when the regex does not
match. -/
def extract_json (text : String) : String :=
  ⟨extractJsonChars text.data⟩

/-- Model of Python `str.lower` (ASCII case mapping; every language code
handled by the service is ASCII). -/
def pyLower (s : String) : String :=
  ⟨s.data.map Char.toLower⟩

/-- Is this character stripped by Python `str.strip()`?  (ASCII whitespace;
the wider Unicode set is never exercised here.) -/
def pyIsSpace (c : Char) : Bool :=
  c == ' ' || c == Char.ofNat 9 || c == Char.ofNat 10 ||
    c == Char.ofNat 13 || c == Char.ofNat 11 || c == Char.ofNat 12

/-- Model of Python `str.strip()`: drop whitespace from both ends. -/
def pyStrip (s : String) : String :=
  ⟨((s.data.dropWhile pyIsSpace).reverse.dropWhile pyIsSpace).reverse⟩

/-- Model of Python slicing `s[:n]` on a string. -/
def pyTake (s : String) (n : Nat) : String :=
  ⟨s.data.take n⟩

/-- Model of Python `v or d` for a string `v`: the empty string is falsy
and yields the default. -/
def pyOrStr (v d : String) : String :=
  if v = "" then d else v

/-- Model of Python `v or d` for an `Optional[str]` value `v`: `None` and
the empty string are falsy and yield the default. -/
def pyOrOptStr (v : Option String) (d : String) : String :=
  match v with
  | none => d
  | some s => if s = "" then d else s

/-- Process configuration, read once from the environment at startup:
`OLLAMA_BASE_URL` and `MODEL_ID` (called `DEFAULT_MODEL` in the code). -/
structure Config where
  ollama_base_url : String
  default_model : String
deriving DecidableEq

/-- The configuration obtained when neither environment variable is set. -/
def defaultConfig : Config :=
  { ollama_base_url := "http://127.0.0.1:11434", default_model := "qwen2:7b" }

/-- `SYSTEM_THAI` from `src/main.py` (braces written via escapes). -/
def SYSTEM_THAI : String :=
  "คุณคือระบบวิเคราะห์ข้อความลูกค้า ตอบกลับเป็น JSON เดียวเท่านั้น " ++
  "รูปแบบ: \x7b\"summary\":\"...\",\"category\":\"general|complaint|request|other\"," ++
  "\"urgency\":\"low|medium|high\",\"language\":\"th|en\"\x7d " ++
  "กติกา: ให้เขียน summary เป็น 'ภาษาไทย' และกำหนด language เป็น 'th' เท่านั้น " ++
  "ห้ามใส่ข้อความอื่นนอกเหนือจาก JSON เดียว"

/-- `SYSTEM_EN` from `src/main.py`. -/
def SYSTEM_EN : String :=
  "You are a text analysis system. Reply with ONE JSON object only: " ++
  "\x7b\"summary\":\"...\",\"category\":\"general|complaint|request|other\"," ++
  "\"urgency\":\"low|medium|high\",\"language\":\"th|en\"\x7d " ++
  "Rules: write the summary in 'English' and set language to 'en' only. " ++
  "No extra text outside the single JSON."

/-- `SYSTEM_AUTO` from `src/main.py`. -/
def SYSTEM_AUTO : String :=
  "You are a multilingual text analysis system. Detect the language automatically. " ++
  "Reply with ONE JSON object only: " ++
  "\x7b\"summary\":\"...\",\"category\":\"general|complaint|request|other\"," ++
  "\"urgency\":\"low|medium|high\",\"language\":\"xx\"\x7d " ++
  "Rules: (1) Set language as ISO 639-1 code (e.g. th, en, ja, zh, fr, de, es); " ++
  "(2) Write the summary in the same language as the input; " ++
  "(3) Output only the single JSON, no extra text."

/-- `_pick_system_msg` from `src/main.py`: choose the system prompt for a
normalized language code; every unmatched value falls through to the
auto-detect template. -/
def pick_system_msg (lang : String) : String :=
  if lang = "th" then SYSTEM_THAI
  else if lang = "en" then SYSTEM_EN
  else if lang = "multi" then SYSTEM_AUTO
  else SYSTEM_AUTO

/-- The role of a chat message (`Role = Literal["system","user","assistant"]`). -/
inductive Role where
  | system
  | user
  | assistant
deriving DecidableEq

/-- Serialisation of a role, as produced by `model_dump`. -/
def Role.toStr : Role → String
  | .system => "system"
  | .user => "user"
  | .assistant => "assistant"

/-- `ChatMessage` request schema. -/
structure ChatMessage where
  role : Role
  content : String
deriving DecidableEq

/-- A message as placed in the outbound backend payload (a plain dict with
`role` and `content` keys). -/
structure Message where
  role : String
  content : String
deriving DecidableEq

/-- `ChatReq` request schema, with the pydantic defaults. -/
structure ChatReq where
  messages : List ChatMessage
  model : Option String := none
  temperature : Option ℚ := some (mkRat 2 10)
  options : Option (List (String × Json)) := none

/-- `ChatResp` response schema.  `stats` is an optional string-keyed
mapping (the code always fills it with the three statistics keys). -/
structure ChatResp where
  model : String
  reply : String
  stats : Option (List (String × Json))

/-- `AnalyzeReq` request schema (`language` is additionally constrained by
`analyzeReqLanguageValid` at the request-validation layer). -/
structure AnalyzeReq where
  text : String
  language : String := "auto"
  model : Option String := none

/-- The pydantic `Literal` enum on `AnalyzeReq.language`: the set of values
the POST request schema declares valid. -/
def analyzeReqLanguageValid (l : String) : Bool :=
  l == "th" || l == "en" || l == "auto" || l == "multi"

/-- `AnalyzeResult` response schema; `category` and `urgency` are
constrained to their enumerated sets by `validate_result`. -/
structure AnalyzeResult where
  summary : String
  category : String
  urgency : String
  language : String
deriving DecidableEq

/-- `AnalyzeResp` response schema. -/
structure AnalyzeResp where
  model : String
  result : AnalyzeResult
deriving DecidableEq

/-- Errors surfaced to the caller, the model of the `HTTPException`s the
code raises (the constructor carries the structured content of the
`detail` f-string) plus `requestValidation` for FastAPI/pydantic schema
rejections and `pyError` for an unhandled Python exception (HTTP 500). -/
inductive HttpError where
  | badLanguage
  | requestValidation
  | unreachable (msg : String)
  | backendError (body : String)
  | invalidJson (err : String) (snippet : String)
  | shapeMismatch (err : String) (snippet : String)
  | pyError (msg : String)
deriving DecidableEq

/-- HTTP status code of each error, as assigned in `src/main.py` (422 for
validation failures, 502 for backend failures, 500 for coercion failures
and unhandled exceptions). -/
def HttpError.status : HttpError → Nat
  | .badLanguage => 422
  | .requestValidation => 422
  | .unreachable _ => 502
  | .backendError _ => 502
  | .invalidJson _ _ => 500
  | .shapeMismatch _ _ => 500
  | .pyError _ => 500

/-- The payload `_post_ollama` sends to `/api/chat`. -/
structure ChatPayload where
  model : String
  messages : List Message
  stream : Bool
  options : Json

/-- Outcome of one physical HTTP POST to the backend: either the request
raised (`requests.RequestException`), or a response arrived with a status
code, a body text (`r.text`) and its parsed JSON (`r.json()`; bodies that
are not JSON are outside the model, no claim exercises them). -/
inductive TransportResult where
  | netError (msg : String)
  | response (status : Nat) (text : String) (data : Json)

/-- The backend transport: what one POST of a given payload returns. -/
def Transport : Type := ChatPayload → TransportResult

/-- `_post_ollama` from `src/main.py`: perform exactly one POST; a network
failure becomes a 502 "Ollama unreachable" error, a status of at least 400
becomes a 502 "Ollama error" carrying the body; otherwise the parsed JSON
is returned.  The second component logs the outbound calls performed. -/
def post_ollama (transport : Transport) (payload : ChatPayload) :
    Except HttpError Json × List ChatPayload :=
  match transport payload with
  | .netError e => (.error (.unreachable e), [payload])
  | .response status text data =>
    if 400 ≤ status then (.error (.backendError text), [payload])
    else (.ok data, [payload])

/-- Lines `(data.get("message") or \x7b\x7d).get("content", "")` of the
handlers: extract the reply text from the backend JSON.  `none` models the
paths where Python raises (a truthy non-dict `message`, or a present
non-string `content`, which crashes on `.strip()` in analyze and fails
response validation in chat). -/
def reply_content (data : Json) : Option String :=
  let msgv := (jsonLookup data "message").getD .null
  let msg := if jsonTruthy msgv then msgv else .obj []
  match msg with
  | .obj fields =>
    match lookupField fields "content" with
    | some (.str s) => some s
    | some _ => none
    | none => some ""
  | _ => none

/-- Model of `AnalyzeResult(**obj)` under pydantic: the parsed value must
be a mapping, the four fields must be present as strings (extra fields are
ignored, as pydantic does for unknown keyword arguments), and `category`
and `urgency` must lie in their `Literal` sets. -/
def validate_result (j : Json) : Except String AnalyzeResult :=
  match j with
  | .obj fields =>
    match lookupField fields "summary", lookupField fields "category",
          lookupField fields "urgency", lookupField fields "language" with
    | some (.str summary), some (.str category), some (.str urgency), some (.str language) =>
      if (category == "general" || category == "complaint" ||
            category == "request" || category == "other") &&
          (urgency == "low" || urgency == "medium" || urgency == "high") then
        .ok { summary := summary, category := category,
              urgency := urgency, language := language }
      else .error "validation error: value not in enumerated set"
    | _, _, _, _ => .error "validation error: missing or mistyped field"
  | _ => .error "argument after ** must be a mapping"

/-- Lines 126-135 of `src/main.py` given the reply content: strip it,
extract the brace-delimited candidate, parse it as JSON and validate the
shape; a parse failure is reported as "Model returned invalid JSON" and a
shape failure as "JSON shape mismatch", both carrying a 200-character
snippet of the (stripped) raw reply. -/
def analyze_coerce (content : String) : Except HttpError AnalyzeResult :=
  let raw := pyStrip content
  let json_text := extract_json raw
  match parse_json json_text with
  | .error e => .error (.invalidJson e (pyTake raw 200))
  | .ok obj =>
    match validate_result obj with
    | .error e => .error (.shapeMismatch e (pyTake raw 200))
    | .ok r => .ok r

/-- `_analyze_once` from `src/main.py`: default an empty language to
"auto", lowercase it, reject anything outside th/en/auto with a 422 before
any backend call, otherwise send the chosen system prompt and the text to
the backend and coerce the reply. -/
def analyze_once (cfg : Config) (transport : Transport)
    (text language : String) (model : Option String) :
    Except HttpError AnalyzeResult × List ChatPayload :=
  let lang := pyLower (pyOrStr language "auto")
  if lang = "th" ∨ lang = "en" ∨ lang = "auto" then
    let mdl := pyOrOptStr model cfg.default_model
    let system_msg := pick_system_msg lang
    let payload : ChatPayload :=
      { model := mdl,
        messages := [⟨"system", system_msg⟩, ⟨"user", text⟩],
        stream := false,
        options := .obj [("temperature", .num (mkRat 1 10))] }
    match post_ollama transport payload with
    | (.error e, calls) => (.error e, calls)
    | (.ok data, calls) =>
      match reply_content data with
      | none => (.error (.pyError "AttributeError"), calls)
      | some content => (analyze_coerce content, calls)
  else (.error .badLanguage, [])

/-- The `/health` route handler: a constant response built from the
configuration; the transport is in scope for every handler but unused
here, and the call log is accordingly empty. -/
def health (cfg : Config) (_transport : Transport) : Json × List ChatPayload :=
  (.obj [("ok", .bool true), ("ollama", .str cfg.ollama_base_url),
         ("default_model", .str cfg.default_model)], [])

/-- The outbound payload built by the `/v1/chat` handler: defaults for the
model, and `req.options or \x7b"temperature": req.temperature\x7d` for the
options (an absent or empty options mapping is falsy and is replaced by
the singleton temperature mapping). -/
def chat_payload (cfg : Config) (req : ChatReq) : ChatPayload :=
  { model := pyOrOptStr req.model cfg.default_model,
    messages := req.messages.map (fun m => ⟨m.role.toStr, m.content⟩),
    stream := false,
    options :=
      match req.options with
      | some (f :: fs) => .obj (f :: fs)
      | _ => .obj [("temperature",
          match req.temperature with
          | some t => .num t
          | none => .null)] }

/-- The `/v1/chat` route handler: one backend call, then reshape the reply
into a `ChatResp`; the stats mapping is always constructed with the three
keys, each `data.get(...)` defaulting to null when absent. -/
def chat (cfg : Config) (transport : Transport) (req : ChatReq) :
    Except HttpError ChatResp × List ChatPayload :=
  let model := pyOrOptStr req.model cfg.default_model
  let payload := chat_payload cfg req
  match post_ollama transport payload with
  | (.error e, calls) => (.error e, calls)
  | (.ok data, calls) =>
    match reply_content data with
    | none => (.error (.pyError "response validation failed"), calls)
    | some message =>
      let stats : List (String × Json) :=
        [("total_duration_ns", (jsonLookup data "total_duration").getD .null),
         ("eval_count", (jsonLookup data "eval_count").getD .null),
         ("prompt_eval_count", (jsonLookup data "prompt_eval_count").getD .null)]
      (.ok { model := model, reply := message, stats := some stats }, calls)

/-- The `POST /v1/analyze` route handler, including the pydantic schema
gate on the `language` Literal that runs before the handler body. -/
def analyze_post (cfg : Config) (transport : Transport) (req : AnalyzeReq) :
    Except HttpError AnalyzeResp × List ChatPayload :=
  if analyzeReqLanguageValid req.language then
    match analyze_once cfg transport req.text req.language req.model with
    | (.error e, calls) => (.error e, calls)
    | (.ok result, calls) =>
      (.ok { model := pyOrOptStr req.model cfg.default_model, result := result }, calls)
  else (.error .requestValidation, [])

/-- The `GET /v1/analyze` route handler: `language` is a plain string
query parameter (default "auto") with no schema constraint. -/
def analyze_get (cfg : Config) (transport : Transport)
    (text language : String) (model : Option String) :
    Except HttpError AnalyzeResp × List ChatPayload :=
  match analyze_once cfg transport text language model with
  | (.error e, calls) => (.error e, calls)
  | (.ok result, calls) =>
    (.ok { model := pyOrOptStr model cfg.default_model, result := result }, calls)

/-- A transport on which every POST fails at the network layer. -/
def transportRefused : Transport := fun _ => .netError "connection refused"

/-- A successful backend reply carrying only the message, none of the
optional statistics fields. -/
def dataNoStats : Json := .obj [("message", .obj [("content", .str "hi")])]

/-- A transport that answers every POST with `dataNoStats` and status 200. -/
def transportNoStats : Transport := fun _ => .response 200 "" dataNoStats

/-- A successful backend reply carrying the message and one statistics
field. -/
def dataWithStats : Json :=
  .obj [("message", .obj [("content", .str "hello")]), ("eval_count", .num 5)]

/-- A transport that answers every POST with `dataWithStats` and status 200. -/
def transportWithStats : Transport := fun _ => .response 200 "" dataWithStats

/-- A minimal chat request relying on all the schema defaults. -/
def reqDefault : ChatReq := { messages := [⟨.user, "hi"⟩] }

/-- A chat request carrying a non-empty explicit options mapping. -/
def reqWithOpts : ChatReq :=
  { messages := [⟨.user, "hi"⟩], options := some [("num_ctx", .num 1024)] }

/-- A concrete outbound payload used to exercise the backend invoker. -/
def payloadEx : ChatPayload :=
  { model := "qwen2:7b", messages := [⟨"user", "hi"⟩], stream := false,
    options := .obj [] }

/-- A transport on which the backend answers every POST with HTTP 500 and
the body "oops". -/
def transport500 : Transport := fun _ => .response 500 "oops" .null

/-- Characterisation of `findFirstIdx`: it returns exactly the index of
the first occurrence of the character, and `none` exactly when the
character does not occur. -/
theorem findFirstIdx_char (c : Char) :
    ∀ s : List Char,
      (∀ i, findFirstIdx c s = some i ↔
        (s.get? i = some c ∧ ∀ k, k < i → s.get? k ≠ some c)) ∧
      (findFirstIdx c s = none ↔ ∀ k, s.get? k ≠ some c) := by
  intro s
  induction s with
  | nil => refine ⟨fun i => ?_, ?_⟩ <;> simp [findFirstIdx]
  | cons x xs ih =>
    obtain ⟨ihS, ihN⟩ := ih
    by_cases hx : x = c
    · subst hx
      refine ⟨fun i => ?_, ?_⟩
      · cases i with
        | zero => simp [findFirstIdx]
        | succ n =>
          simp only [findFirstIdx, if_pos rfl]
          constructor
          · intro h; simp at h
          · rintro ⟨-, hall⟩
            exact absurd (by simp : (x :: xs).get? 0 = some x)
              (hall 0 (Nat.succ_pos n))
      · simp only [findFirstIdx, if_pos rfl]
        constructor
        · intro h; simp at h
        · intro hall
          exact absurd (by simp : (x :: xs).get? 0 = some x) (hall 0)
    · refine ⟨fun i => ?_, ?_⟩
      · cases i with
        | zero =>
          simp only [findFirstIdx, if_neg hx]
          constructor
          · intro h
            rcases Option.map_eq_some'.1 h with ⟨m, -, hm0⟩
            exact absurd hm0 (by omega)
          · rintro ⟨h0, -⟩
            have : x = c := by simpa using h0
            exact absurd this hx
        | succ n =>
          simp only [findFirstIdx, if_neg hx]
          constructor
          · intro h
            rcases Option.map_eq_some'.1 h with ⟨m, hm, hmn⟩
            have hm' : m = n := by omega
            subst hm'
            rcases (ihS m).1 hm with ⟨hg, hall⟩
            refine ⟨by simpa using hg, ?_⟩
            intro k hk
            cases k with
            | zero => simp [hx]
            | succ k' =>
              simp only [List.get?_cons_succ]
              exact hall k' (by omega)
          · rintro ⟨hg, hall⟩
            have hg' : xs.get? n = some c := by simpa using hg
            have hall' : ∀ k, k < n → xs.get? k ≠ some c := by
              intro k hk
              have := hall (k + 1) (by omega)
              simpa using this
            have hfx : findFirstIdx c xs = some n := (ihS n).2 ⟨hg', hall'⟩
            simp [hfx]
      · simp only [findFirstIdx, if_neg hx]
        constructor
        · intro h
          have hn : findFirstIdx c xs = none := by
            cases hfx : findFirstIdx c xs with
            | none => rfl
            | some m => simp [hfx] at h
          have hall := ihN.1 hn
          intro k
          cases k with
          | zero => simp [hx]
          | succ k' => simpa using hall k'
        · intro hall
          have hn : findFirstIdx c xs = none :=
            ihN.2 (fun k => by simpa using hall (k + 1))
          simp [hn]

/-- Characterisation of `findLastIdx`: it returns exactly the index of the
last occurrence of the character, and `none` exactly when the character
does not occur. -/
theorem findLastIdx_char (c : Char) :
    ∀ s : List Char,
      (∀ j, findLastIdx c s = some j ↔
        (s.get? j = some c ∧ ∀ k, j < k → s.get? k ≠ some c)) ∧
      (findLastIdx c s = none ↔ ∀ k, s.get? k ≠ some c) := by
  intro s
  induction s with
  | nil => refine ⟨fun j => ?_, ?_⟩ <;> simp [findLastIdx]
  | cons x xs ih =>
    obtain ⟨ihS, ihN⟩ := ih
    cases hfx : findLastIdx c xs with
    | some j' =>
      obtain ⟨hg', hall'⟩ := (ihS j').1 hfx
      refine ⟨fun j => ?_, ?_⟩
      · simp only [findLastIdx, hfx]
        constructor
        · intro h
          have hj : j = j' + 1 := by
            have := Option.some.inj h
            omega
          subst hj
          refine ⟨by simpa using hg', ?_⟩
          intro k hk
          cases k with
          | zero => exact absurd hk (by omega)
          | succ k' =>
            simp only [List.get?_cons_succ]
            exact hall' k' (by omega)
        · rintro ⟨hg, hall⟩
          cases j with
          | zero =>
            exact absurd (by simpa using hg' : (x :: xs).get? (j' + 1) = some c)
              (hall (j' + 1) (Nat.succ_pos _))
          | succ m =>
            have hgm : xs.get? m = some c := by simpa using hg
            have hallm : ∀ k, m < k → xs.get? k ≠ some c := fun k hk => by
              simpa using hall (k + 1) (by omega)
            have hm : findLastIdx c xs = some m := (ihS m).2 ⟨hgm, hallm⟩
            rw [hfx] at hm
            have := Option.some.inj hm
            simp [this]
      · simp only [findLastIdx, hfx]
        constructor
        · intro h; simp at h
        · intro hall
          exact absurd (by simpa using hg' : (x :: xs).get? (j' + 1) = some c)
            (hall (j' + 1))
    | none =>
      have hN := ihN.1 hfx
      by_cases hx : x = c
      · subst hx
        refine ⟨fun j => ?_, ?_⟩
        · simp only [findLastIdx, hfx, if_pos rfl]
          constructor
          · intro h
            have hj : j = 0 := by
              have := Option.some.inj h
              omega
            subst hj
            refine ⟨by simp, ?_⟩
            intro k hk
            cases k with
            | zero => exact absurd hk (by omega)
            | succ k' => simpa using hN k'
          · rintro ⟨hg, hall⟩
            cases j with
            | zero => rfl
            | succ m => exact absurd (by simpa using hg) (hN m)
        · simp only [findLastIdx, hfx, if_pos rfl]
          constructor
          · intro h; simp at h
          · intro hall
            exact absurd (by simp : (x :: xs).get? 0 = some x) (hall 0)
      · refine ⟨fun j => ?_, ?_⟩
        · simp only [findLastIdx, hfx, if_neg hx]
          constructor
          · intro h; simp at h
          · rintro ⟨hg, -⟩
            cases j with
            | zero =>
              have : x = c := by simpa using hg
              exact absurd this hx
            | succ m => exact absurd (by simpa using hg) (hN m)
        · simp only [findLastIdx, hfx, if_neg hx]
          constructor
          · intro _ k
            cases k with
            | zero => simp [hx]
            | succ k' => simpa using hN k'
          · intro _; trivial

/-- C1: for every input text, `_extract_json` returns the substring from
the first opening brace to the last closing brace (the greedy DOTALL
regex match); when no such span exists the whole input text is returned
unchanged. -/
theorem extract_json_first_to_last (text : String) :
    (∀ i j, text.data.get? i = some lbrace →
        (∀ k, k < i → text.data.get? k ≠ some lbrace) →
        text.data.get? j = some rbrace →
        (∀ k, k < text.data.length → j < k → text.data.get? k ≠ some rbrace) →
        i < j →
        extract_json text = ⟨(text.data.drop i).take (j + 1 - i)⟩) ∧
    ((∀ i, i < text.data.length → text.data.get? i = some lbrace →
        ∀ j, j < text.data.length → i < j → text.data.get? j ≠ some rbrace) →
      extract_json text = text) := by
  constructor
  · intro i j h1 h2 h3 h4 hij
    have hf : findFirstIdx lbrace text.data = some i :=
      ((findFirstIdx_char lbrace text.data).1 i).2 ⟨h1, h2⟩
    have h4' : ∀ k, j < k → text.data.get? k ≠ some rbrace := by
      intro k hk
      by_cases hlen : k < text.data.length
      · exact h4 k hlen hk
      · intro hc
        rw [List.get?_eq_none.2 (Nat.le_of_not_lt hlen)] at hc
        exact Option.noConfusion hc
    have hl : findLastIdx rbrace text.data = some j :=
      ((findLastIdx_char rbrace text.data).1 j).2 ⟨h3, h4'⟩
    have hcore : extractJsonChars text.data = (text.data.drop i).take (j + 1 - i) := by
      simp [extractJsonChars, hf, hl, hij]
    unfold extract_json
    rw [hcore]
  · intro h
    rcases hf : findFirstIdx lbrace text.data with _ | i
    · have hcore : extractJsonChars text.data = text.data := by
        simp [extractJsonChars, hf]
      unfold extract_json
      rw [hcore]
    · rcases hl : findLastIdx rbrace text.data with _ | j
      · have hcore : extractJsonChars text.data = text.data := by
          simp [extractJsonChars, hf, hl]
        unfold extract_json
        rw [hcore]
      · have hnot : ¬ i < j := by
          intro hij
          obtain ⟨hgi, -⟩ := ((findFirstIdx_char lbrace text.data).1 i).1 hf
          obtain ⟨hgj, -⟩ := ((findLastIdx_char rbrace text.data).1 j).1 hl
          have hi_lt : i < text.data.length := by
            rcases List.get?_eq_some.1 hgi with ⟨hlt, -⟩
            exact hlt
          have hj_lt : j < text.data.length := by
            rcases List.get?_eq_some.1 hgj with ⟨hlt, -⟩
            exact hlt
          exact h i hi_lt hgi j hj_lt hij hgj
        have hcore : extractJsonChars text.data = text.data := by
          simp [extractJsonChars, hf, hl, if_neg hnot]
        unfold extract_json
        rw [hcore]

/-- Witness for C1: a text with surrounding commentary yields the brace
span; a brace-free text is returned unchanged. -/
theorem extract_json_first_to_last_witness :
    extract_json "a\x7bb\x7dc" = ⟨(("a\x7bb\x7dc" : String).data.drop 1).take 3⟩ ∧
    extract_json "no braces" = "no braces" :=
  ⟨(extract_json_first_to_last "a\x7bb\x7dc").1 1 3 (by decide) (by decide)
      (by decide) (by decide) (by decide),
   (extract_json_first_to_last "no braces").2 (by decide)⟩

/-- C2 (amended): "multi" passes the request schema yet the analyze gate
rejects it with a 422 validation error before any backend call; in
general every non-empty language value whose lowercase form is outside
th/en/auto is rejected that way (the empty value, by contrast, is
defaulted to "auto" and accepted, see the counterexample). -/
theorem analyze_language_gate_rejects :
    analyzeReqLanguageValid "multi" = true ∧
    (∀ (cfg : Config) (transport : Transport) (text : String) (model : Option String),
      analyze_post cfg transport { text := text, language := "multi", model := model } =
        (.error .badLanguage, [])) ∧
    (∀ lang, lang ≠ "" →
      pyLower lang ≠ "th" → pyLower lang ≠ "en" → pyLower lang ≠ "auto" →
      ∀ (cfg : Config) (transport : Transport) (text : String) (model : Option String),
        analyze_once cfg transport text lang model = (.error .badLanguage, [])) ∧
    HttpError.badLanguage.status = 422 := by
  refine ⟨rfl, fun cfg transport text model => rfl, ?_, rfl⟩
  intro lang hne h1 h2 h3 cfg transport text model
  simp only [analyze_once, pyOrStr, if_neg hne]
  have hnot : ¬ (pyLower lang = "th" ∨ pyLower lang = "en" ∨ pyLower lang = "auto") := by
    rintro (h | h | h)
    · exact h1 h
    · exact h2 h
    · exact h3 h
  rw [if_neg hnot]

/-- Witness for C2 at the concrete language "MULTI" (whose lowercase form
is "multi"): the gate rejects it with no backend call. -/
theorem analyze_language_gate_rejects_witness :
    analyze_once defaultConfig transportRefused "hi" "MULTI" none =
      (.error .badLanguage, []) :=
  analyze_language_gate_rejects.2.2.1 "MULTI" (by decide) (by decide) (by decide)
    (by decide) defaultConfig transportRefused "hi" none

/-- C2 counterexample: on the GET route an empty language value — which
is outside the accepted set after lowercasing — is not rejected at the
validation gate: it is defaulted to "auto" and a backend call is made
(observable here as the 502 unreachable error and the non-empty call
log). -/
theorem analyze_empty_language_not_rejected :
    (pyLower "" ≠ "th" ∧ pyLower "" ≠ "en" ∧ pyLower "" ≠ "auto") ∧
    (analyze_get defaultConfig transportRefused "hi" "" none).1 =
      .error (.unreachable "connection refused") ∧
    (analyze_get defaultConfig transportRefused "hi" "" none).2 =
      [{ model := "qwen2:7b",
         messages := [⟨"system", SYSTEM_AUTO⟩, ⟨"user", "hi"⟩],
         stream := false,
         options := .obj [("temperature", .num (mkRat 1 10))] }] :=
  ⟨by decide, rfl, rfl⟩

/-- C7: the backend invoker performs exactly one POST per invocation (no
retry); a network failure surfaces as the 502 "Ollama unreachable" error,
and any backend status of at least 400 surfaces as the 502 "Ollama error"
carrying the backend's response body as detail. -/
theorem post_ollama_failure_modes (transport : Transport) (payload : ChatPayload) :
    (post_ollama transport payload).2 = [payload] ∧
    (∀ msg, transport payload = .netError msg →
      (post_ollama transport payload).1 = .error (.unreachable msg) ∧
      (HttpError.unreachable msg).status = 502) ∧
    (∀ status text data, transport payload = .response status text data →
      400 ≤ status →
      (post_ollama transport payload).1 = .error (.backendError text) ∧
      (HttpError.backendError text).status = 502) := by
  refine ⟨?_, ?_, ?_⟩
  · unfold post_ollama
    cases transport payload with
    | netError e => rfl
    | response s t d => by_cases h : 400 ≤ s <;> simp [h]
  · intro msg h
    refine ⟨?_, rfl⟩
    simp [post_ollama, h]
  · intro status text data h hs
    refine ⟨?_, rfl⟩
    simp [post_ollama, h, if_pos hs]

/-- Witness for C7 at a refused connection and at a 500 response. -/
theorem post_ollama_failure_modes_witness :
    ((post_ollama transportRefused payloadEx).1 =
        .error (.unreachable "connection refused") ∧
      (HttpError.unreachable "connection refused").status = 502) ∧
    ((post_ollama transport500 payloadEx).1 = .error (.backendError "oops") ∧
      (HttpError.backendError "oops").status = 502) :=
  ⟨(post_ollama_failure_modes transportRefused payloadEx).2.1 "connection refused" rfl,
   (post_ollama_failure_modes transport500 payloadEx).2.2 500 "oops" .null rfl
     (by decide)⟩

/-- C9 (amended): `/health` always returns ok true together with the
configured backend base URL and default model name — the URL is carried
under the response key "ollama", not "backend_url" — for every
configuration and every backend transport, and performs no backend call
(the call log is empty). -/
theorem health_response (cfg : Config) (transport : Transport) :
    health cfg transport =
      (.obj [("ok", .bool true), ("ollama", .str cfg.ollama_base_url),
             ("default_model", .str cfg.default_model)], []) := rfl

/-- C9 counterexample: the claimed response shape names a "backend_url"
field, but the health response has no such key; the backend URL is under
"ollama". -/
theorem health_key_is_ollama :
    jsonLookup (health defaultConfig transportRefused).1 "backend_url" = none ∧
    jsonLookup (health defaultConfig transportRefused).1 "ollama" =
      some (.str "http://127.0.0.1:11434") ∧
    jsonLookup (health defaultConfig transportRefused).1 "ok" = some (.bool true) :=
  ⟨rfl, rfl, rfl⟩

/-- C10: with an absent or empty options mapping the outbound options is
exactly the singleton temperature mapping built from the request's
temperature; a non-empty options mapping is forwarded verbatim, and the
temperature field then has no effect on the outbound payload at all. -/
theorem chat_options_defaulting (cfg : Config) (req : ChatReq) :
    ((req.options = none ∨ req.options = some []) →
      (chat_payload cfg req).options =
        .obj [("temperature",
          match req.temperature with
          | some t => .num t
          | none => .null)]) ∧
    (∀ f fs, req.options = some (f :: fs) →
      (chat_payload cfg req).options = .obj (f :: fs) ∧
      ∀ t, chat_payload cfg { req with temperature := t } = chat_payload cfg req) := by
  constructor
  · rintro (h | h) <;> simp [chat_payload, h]
  · intro f fs h
    refine ⟨by simp [chat_payload, h], ?_⟩
    intro t
    simp [chat_payload, h]

/-- Witness for C10: the default request gets the default temperature
mapping; a request with explicit non-empty options has it forwarded. -/
theorem chat_options_defaulting_witness :
    (chat_payload defaultConfig reqDefault).options =
      .obj [("temperature", .num (mkRat 2 10))] ∧
    (chat_payload defaultConfig reqWithOpts).options =
      .obj [("num_ctx", .num 1024)] :=
  ⟨(chat_options_defaulting defaultConfig reqDefault).1 (Or.inl rfl),
   ((chat_options_defaulting defaultConfig reqWithOpts).2 ("num_ctx", .num 1024) []
      rfl).1⟩

/-- C3: the prompt-template selector is total over strings: "th" yields
the Thai template, "en" the English template, and every other value the
auto-detect multilingual template. -/
theorem pick_system_msg_total :
    pick_system_msg "th" = SYSTEM_THAI ∧ pick_system_msg "en" = SYSTEM_EN ∧
    ∀ lang, lang ≠ "th" → lang ≠ "en" → pick_system_msg lang = SYSTEM_AUTO := by
  refine ⟨rfl, rfl, ?_⟩
  intro lang h1 h2
  simp only [pick_system_msg, if_neg h1, if_neg h2]
  by_cases h3 : lang = "multi" <;> simp [h3]

/-- Witness for C3 at the concrete inputs "auto", "multi" and the empty
string, all mapped to the auto-detect template. -/
theorem pick_system_msg_total_witness :
    pick_system_msg "auto" = SYSTEM_AUTO ∧ pick_system_msg "multi" = SYSTEM_AUTO ∧
    pick_system_msg "" = SYSTEM_AUTO :=
  ⟨pick_system_msg_total.2.2 "auto" (by decide) (by decide),
   pick_system_msg_total.2.2 "multi" (by decide) (by decide),
   pick_system_msg_total.2.2 "" (by decide) (by decide)⟩

/-- C4: the concrete raw reply with commentary around the JSON object
round-trips: extraction yields the embedded object, parsing and shape
validation succeed, and the produced result has the expected four
fields. -/
theorem analyze_coerce_roundtrip :
    extract_json
        "Sure! \x7b\"summary\":\"ok\",\"category\":\"general\",\"urgency\":\"low\",\"language\":\"en\"\x7d thanks" =
      "\x7b\"summary\":\"ok\",\"category\":\"general\",\"urgency\":\"low\",\"language\":\"en\"\x7d" ∧
    analyze_coerce
        "Sure! \x7b\"summary\":\"ok\",\"category\":\"general\",\"urgency\":\"low\",\"language\":\"en\"\x7d thanks" =
      .ok { summary := "ok", category := "general", urgency := "low",
            language := "en" } :=
  ⟨rfl, rfl⟩

/-- C5 (amended): for every raw reply without brace characters the
extraction step falls back to the entire (stripped) reply text, and when
that text is not itself valid JSON the pipeline reports the
"Model returned invalid JSON" error with the truncated snippet — it never
crashes.  (A brace-free reply that happens to be valid JSON instead
proceeds to shape validation; see the counterexample.) -/
theorem analyze_coerce_no_braces_invalid_json (content : String)
    (hb : ∀ c ∈ (pyStrip content).data, c ≠ lbrace ∧ c ≠ rbrace)
    (hp : ∃ e, parse_json (pyStrip content) = .error e) :
    extract_json (pyStrip content) = pyStrip content ∧
    ∃ e, analyze_coerce content =
      .error (.invalidJson e (pyTake (pyStrip content) 200)) := by
  have hnone : findFirstIdx lbrace (pyStrip content).data = none := by
    refine (findFirstIdx_char lbrace (pyStrip content).data).2.2 ?_
    intro k hk
    have hmem : lbrace ∈ (pyStrip content).data := List.get?_mem hk
    exact (hb lbrace hmem).1 rfl
  have hext : extract_json (pyStrip content) = pyStrip content := by
    have hcore : extractJsonChars (pyStrip content).data = (pyStrip content).data := by
      simp [extractJsonChars, hnone]
    unfold extract_json
    rw [hcore]
  refine ⟨hext, ?_⟩
  obtain ⟨e, he⟩ := hp
  exact ⟨e, by simp [analyze_coerce, hext, he]⟩

/-- Witness for C5 at a concrete brace-free, non-JSON reply. -/
theorem analyze_coerce_no_braces_invalid_json_witness :
    extract_json (pyStrip "I cannot answer that.") =
      pyStrip "I cannot answer that." ∧
    ∃ e, analyze_coerce "I cannot answer that." =
      .error (.invalidJson e (pyTake (pyStrip "I cannot answer that.") 200)) :=
  analyze_coerce_no_braces_invalid_json "I cannot answer that." (by decide)
    ⟨"Expecting value", rfl⟩

/-- C5 counterexample: the brace-free reply "true" is valid JSON, so the
parse step succeeds and the pipeline fails at shape validation with the
"JSON shape mismatch" error — not with the claimed invalid-JSON error. -/
theorem analyze_coerce_braceless_valid_json :
    (∀ c ∈ ("true" : String).data, c ≠ lbrace ∧ c ≠ rbrace) ∧
    parse_json "true" = .ok (.bool true) ∧
    analyze_coerce "true" =
      .error (.shapeMismatch "argument after ** must be a mapping" "true") :=
  ⟨by decide, rfl, rfl⟩

/-- A successful shape validation pins the category field: the validated
object carries "category" as a string drawn from the enumerated set. -/
theorem validate_result_ok_category (j : Json) (r : AnalyzeResult)
    (h : validate_result j = .ok r) :
    jsonLookup j "category" = some (.str r.category) ∧
    (r.category = "general" ∨ r.category = "complaint" ∨
      r.category = "request" ∨ r.category = "other") := by
  cases j with
  | null => exact Except.noConfusion h
  | bool b => exact Except.noConfusion h
  | num q => exact Except.noConfusion h
  | str s => exact Except.noConfusion h
  | arr elems => exact Except.noConfusion h
  | obj fields =>
    simp only [validate_result] at h
    split at h
    · rename_i summary category urgency language hs hc hu hl
      split at h
      · rename_i hcond
        cases h
        simp only [Bool.and_eq_true, Bool.or_eq_true, beq_iff_eq] at hcond
        refine ⟨?_, ?_⟩
        · simpa [jsonLookup] using hc
        · tauto
      · exact Except.noConfusion h
    · exact Except.noConfusion h

/-- C6: whenever the extracted candidate parses as JSON whose "category"
value lies outside the enumerated category set, the analyze pipeline
reports the "JSON shape mismatch" error together with the diagnostic
snippet. -/
theorem analyze_coerce_bad_category (content : String) (j v : Json)
    (hp : parse_json (extract_json (pyStrip content)) = .ok j)
    (hc : jsonLookup j "category" = some v)
    (hv : ∀ c : String, v = .str c →
      c ≠ "general" ∧ c ≠ "complaint" ∧ c ≠ "request" ∧ c ≠ "other") :
    ∃ m, analyze_coerce content =
      .error (.shapeMismatch m (pyTake (pyStrip content) 200)) := by
  cases hval : validate_result j with
  | ok r =>
    obtain ⟨hcat, hmem⟩ := validate_result_ok_category j r hval
    rw [hc] at hcat
    have hv' : v = .str r.category := Option.some.inj hcat
    have hne := hv r.category hv'
    rcases hmem with h | h | h | h
    · exact absurd h hne.1
    · exact absurd h hne.2.1
    · exact absurd h hne.2.2.1
    · exact absurd h hne.2.2.2
  | error m =>
    exact ⟨m, by simp [analyze_coerce, hp, hval]⟩

/-- Witness for C6 at a concrete reply whose category is "urgent". -/
theorem analyze_coerce_bad_category_witness :
    ∃ m, analyze_coerce
        "\x7b\"summary\":\"ok\",\"category\":\"urgent\",\"urgency\":\"low\",\"language\":\"en\"\x7d" =
      .error (.shapeMismatch m
        (pyTake
          (pyStrip
            "\x7b\"summary\":\"ok\",\"category\":\"urgent\",\"urgency\":\"low\",\"language\":\"en\"\x7d")
          200)) :=
  analyze_coerce_bad_category
    "\x7b\"summary\":\"ok\",\"category\":\"urgent\",\"urgency\":\"low\",\"language\":\"en\"\x7d"
    (.obj [("summary", .str "ok"), ("category", .str "urgent"),
           ("urgency", .str "low"), ("language", .str "en")])
    (.str "urgent") rfl rfl
    (fun c h => by injection h with h2; subst h2; decide)

/-- C8 (amended): on a successful backend reply the chat handler returns
the reply text together with a stats mapping that always contains the
three keys total_duration_ns (copied from the backend's total_duration),
eval_count and prompt_eval_count, each value copied verbatim when the
field is present in the backend payload and null when it is absent. -/
theorem chat_reshape_stats (cfg : Config) (transport : Transport) (req : ChatReq)
    (status : Nat) (text : String) (data : Json) (content : String)
    (ht : transport (chat_payload cfg req) = .response status text data)
    (hs : status < 400)
    (hc : reply_content data = some content) :
    (chat cfg transport req).1 =
      .ok { model := pyOrOptStr req.model cfg.default_model,
            reply := content,
            stats := some
              [("total_duration_ns", (jsonLookup data "total_duration").getD .null),
               ("eval_count", (jsonLookup data "eval_count").getD .null),
               ("prompt_eval_count",
                 (jsonLookup data "prompt_eval_count").getD .null)] } := by
  have hpost : post_ollama transport (chat_payload cfg req) =
      (.ok data, [chat_payload cfg req]) := by
    simp only [post_ollama, ht]
    rw [if_neg (Nat.not_le.2 hs)]
  simp [chat, hpost, hc]

/-- Witness for C8 at a concrete backend reply carrying one statistics
field. -/
theorem chat_reshape_stats_witness :
    (chat defaultConfig transportWithStats reqDefault).1 =
      .ok { model := pyOrOptStr reqDefault.model defaultConfig.default_model,
            reply := "hello",
            stats := some
              [("total_duration_ns",
                 (jsonLookup dataWithStats "total_duration").getD .null),
               ("eval_count", (jsonLookup dataWithStats "eval_count").getD .null),
               ("prompt_eval_count",
                 (jsonLookup dataWithStats "prompt_eval_count").getD .null)] } :=
  chat_reshape_stats defaultConfig transportWithStats reqDefault 200 "" dataWithStats
    "hello" rfl (by decide) rfl

/-- C8 counterexample: with a backend payload carrying none of the three
statistics fields, the chat response still includes all three stats keys
(bound to null) — the statistics are not included "only when present". -/
theorem chat_stats_included_when_absent :
    jsonLookup dataNoStats "total_duration" = none ∧
    jsonLookup dataNoStats "eval_count" = none ∧
    jsonLookup dataNoStats "prompt_eval_count" = none ∧
    (chat defaultConfig transportNoStats reqDefault).1 =
      .ok { model := "qwen2:7b", reply := "hi",
            stats := some
              [("total_duration_ns", .null), ("eval_count", .null),
               ("prompt_eval_count", .null)] } :=
  ⟨rfl, rfl, rfl, rfl⟩

end OllamaFacade
